import Mathlib

/-!
A shallow embedding of `cloud/profitbricks/profitbricks_snapshot.py`
(Ansible module `profitbricks_snapshot`) and proofs about it.

Modelling conventions:
* The ProfitBricks SDK client is a `Provider` record of pure response data;
  every call the module makes to it is also recorded in an `Effect` trace.
* `module.params` is the `Params` structure; an Ansible parameter that was
  not supplied is `none`, and Python truthiness of a string parameter is
  `¬ falsy`.
* `module.exit_json` / `module.fail_json` terminate the module, so `main`
  returns an `Outcome` describing the single report made to the orchestrator
  (or `noReport` when the Python function falls off the end).
* `time.time()` / `time.sleep(5)` in `_wait_for_completion` are modelled by
  a natural-number clock that advances by exactly 5 at each `sleep(5)`;
  the polled request statuses are an oracle `status : Nat → String` giving
  the body of the k-th `get_request` response.
-/

namespace ProfitbricksSnapshot

/-! ### The UUID regex

`uuid_match = re.compile(r..., re.I)` with the pattern
`[\w]{8}-[\w]{4}-[\w]{4}-[\w]{4}-[\w]{12}`,
used via `uuid_match.match(s)`: anchored at the start of the string only.
Python 2 `\w` on a byte string is `[A-Za-z0-9_]`. -/

/-- Python 2 regex `\w` on a byte string: ASCII letter, digit or underscore. -/
def isWordChar (c : Char) : Bool :=
  (('a' ≤ c && c ≤ 'z') || ('A' ≤ c && c ≤ 'Z') || ('0' ≤ c && c ≤ '9') || c = '_')

/-- Consume exactly `n` word characters from the front, returning the rest. -/
def takeWord : Nat → List Char → Option (List Char)
  | 0, s => some s
  | _ + 1, [] => none
  | n + 1, c :: s => if isWordChar c then takeWord n s else none

/-- Consume a literal hyphen from the front, returning the rest. -/
def dash : List Char → Option (List Char)
  | [] => none
  | c :: s => if c = '-' then some s else none

/-- The regex engine for `[\w]{8}-[\w]{4}-[\w]{4}-[\w]{4}-[\w]{12}` matched
at the start of the string (`re.match`): on success, returns the unmatched
tail. -/
def uuidMatchCore (s : List Char) : Option (List Char) :=
  (takeWord 8 s).bind fun s =>
  (dash s).bind fun s =>
  (takeWord 4 s).bind fun s =>
  (dash s).bind fun s =>
  (takeWord 4 s).bind fun s =>
  (dash s).bind fun s =>
  (takeWord 4 s).bind fun s =>
  (dash s).bind fun s =>
  takeWord 12 s

/-- `bool(uuid_match.match(s))`: whether the pattern matches at the start of
`s`. -/
def uuid_match (s : String) : Bool :=
  (uuidMatchCore s.data).isSome

/-! ### The SDK client model and the effect trace -/

/-- An entry of the items field of `list_datacenters()`; the module only
reads its id. -/
structure DCItem where
  id : String
deriving DecidableEq, Repr

/-- An entry of the items field of `list_volumes(...)` or
`list_snapshots()`; the module reads its id and its properties.name. -/
structure NamedItem where
  id : String
  name : String
deriving DecidableEq, Repr

/-- The response of `profitbricks.create_snapshot` (the snapshot dict the
module reports back verbatim). -/
structure SnapshotDict where
  requestId : String
deriving DecidableEq, Repr

/-- One call into the ProfitBricks SDK client. -/
inductive SdkCall where
  | listDatacenters
  | getDatacenter (id : String)
  | listVolumes (datacenter : String)
  | listSnapshots
  | createSnapshot (datacenter volume : String)
      (snapshot_name description : Option String)
  | removeSnapshot (snapshot : String)
  | getRequest (requestId : String)
deriving DecidableEq, Repr

/-- An observable effect of the module.  The code of the module only ever
produces `sdk` effects; the other two constructors exist so that the
absence of parameter mutation and of local-storage writes is a statement,
not a typing accident. -/
inductive Effect where
  | sdk (c : SdkCall)
  | paramWrite (key value : String)
  | localWrite (path data : String)
deriving DecidableEq, Repr

/-- `true` exactly on `Effect.sdk _`. -/
def Effect.isSdk : Effect → Bool
  | .sdk _ => true
  | _ => false

/-- `true` exactly on an `Effect.sdk (SdkCall.getRequest _)` (a request
status poll). -/
def Effect.isGetRequest : Effect → Bool
  | .sdk (.getRequest _) => true
  | _ => false

/-- The authenticated SDK client, as pure response data. -/
structure Provider where
  datacenters : List DCItem
  dcName : String → String
  volumes : String → List NamedItem
  snapshots : List NamedItem
  createSnap : String → String → Option String → Option String → SnapshotDict
  removeSnap : String → Bool

/-! ### Name-to-ID resolution (`create_snapshot` / `remove_snapshot` bodies) -/

/-- The datacenter loop: for each item d of the datacenter list, fetch
`dc = get_datacenter(d.id)` and, when the datacenter string equals
dc.properties.name, rebind the variable to d.id and break. -/
def dcLoop (pb : Provider) : List DCItem → String → String × List Effect
  | [], datacenter => (datacenter, [])
  | d :: rest, datacenter =>
    if datacenter = pb.dcName d.id then
      (d.id, [Effect.sdk (.getDatacenter d.id)])
    else
      let r := dcLoop pb rest datacenter
      (r.1, Effect.sdk (.getDatacenter d.id) :: r.2)

/-- `# Locate UUID for Datacenter` in `create_snapshot`. -/
def locateDatacenter (pb : Provider) (datacenter : String) :
    String × List Effect :=
  if uuid_match datacenter then (datacenter, [])
  else
    let r := dcLoop pb pb.datacenters datacenter
    (r.1, Effect.sdk .listDatacenters :: r.2)

/-- The match-by-name loop over a list of items carrying properties.name
directly (volumes and snapshots). -/
def nameLoop : List NamedItem → String → String
  | [], current => current
  | v :: rest, current => if current = v.name then v.id else nameLoop rest current

/-- `# Locate UUID for Volume` in `create_snapshot`; `datacenter` is the
(already resolved) value passed to `list_volumes`. -/
def locateVolume (pb : Provider) (datacenter volume : String) :
    String × List Effect :=
  if uuid_match volume then (volume, [])
  else (nameLoop (pb.volumes datacenter) volume,
        [Effect.sdk (.listVolumes datacenter)])

/-- `# Locate UUID for Snapshot` in `remove_snapshot`. -/
def locateSnapshot (pb : Provider) (snapshot : String) :
    String × List Effect :=
  if uuid_match snapshot then (snapshot, [])
  else (nameLoop pb.snapshots snapshot, [Effect.sdk .listSnapshots])

/-! ### `module.params` and the two operation functions -/

/-- `module.params` after Ansible argument parsing. -/
structure Params where
  datacenter : Option String
  volume : Option String
  snapshot : Option String
  snapshot_name : Option String
  description : Option String
  subscription_user : Option String
  subscription_password : Option String
  wait : Bool
  wait_timeout : Nat
  state : String
deriving DecidableEq, Repr

/-- Python truthiness test `not module.params.get(k)` for a string-typed
parameter: absent or the empty string. -/
def falsy : Option String → Bool
  | none => true
  | some s => s = ""

/-- A Python-level exception escaping the function (here: `TypeError` from
calling `uuid_match.match(None)`). -/
inductive PyErr where
  | typeError
deriving DecidableEq, Repr

/-- `create_snapshot(module, profitbricks)`: resolve datacenter and volume,
then call the SDK `create_snapshot` and return its response. -/
def create_snapshot (params : Params) (pb : Provider) :
    Except PyErr SnapshotDict × List Effect :=
  match params.datacenter with
  | none => (.error .typeError, [])
  | some datacenter0 =>
    let rd := locateDatacenter pb datacenter0
    match params.volume with
    | none => (.error .typeError, rd.2)
    | some volume0 =>
      let rv := locateVolume pb rd.1 volume0
      (.ok (pb.createSnap rd.1 rv.1 params.snapshot_name params.description),
       rd.2 ++ rv.2 ++
         [Effect.sdk (.createSnapshot rd.1 rv.1
            params.snapshot_name params.description)])

/-- `remove_snapshot(module, profitbricks)`: resolve the snapshot, then call
the SDK `remove_snapshot` and return its response. -/
def remove_snapshot (params : Params) (pb : Provider) :
    Except PyErr Bool × List Effect :=
  match params.snapshot with
  | none => (.error .typeError, [])
  | some snapshot0 =>
    let rs := locateSnapshot pb snapshot0
    (.ok (pb.removeSnap rs.1), rs.2 ++ [Effect.sdk (.removeSnapshot rs.1)])

/-! ### `main` -/

/-- The single report `main` makes to the orchestrator: a `fail_json`, an
`exit_json` (with a `snapshot` or a `changed` field), an uncaught Python
exception, or no report at all (the function fell off the end). -/
inductive Outcome where
  | failJson (msg : String)
  | exitSnapshot (snapshot : SnapshotDict)
  | exitChanged (changed : Bool)
  | pyError (e : PyErr)
  | noReport
deriving DecidableEq, Repr

/-- `main()`: credential checks, then dispatch on `state`. -/
def main (params : Params) (pb : Provider) : Outcome × List Effect :=
  if falsy params.subscription_user then
    (.failJson "subscription_user parameter is required", [])
  else if falsy params.subscription_password then
    (.failJson "subscription_password parameter is required", [])
  else if params.state = "absent" then
    if falsy params.snapshot then
      (.failJson "snapshot parameter is required", [])
    else
      match remove_snapshot params pb with
      | (.ok changed, tr) => (.exitChanged changed, tr)
      | (.error e, tr) => (.pyError e, tr)
  else if params.state = "present" then
    if falsy params.datacenter then
      (.failJson "datacenter parameter is required", [])
    else if falsy params.volume then
      (.failJson "volume parameter is required", [])
    else
      match create_snapshot params pb with
      | (.ok snapshot_dict, tr) => (.exitSnapshot snapshot_dict, tr)
      | (.error e, tr) => (.pyError e, tr)
  else (.noReport, [])

/-! ### `_wait_for_completion`

Dead code in the module (no call site), but the subject of several claims.
-/

/-- How `_wait_for_completion` ends: a normal return, the raise that says
the request failed to complete, or the raise that says it timed out
waiting for the async operation. -/
inductive WaitOutcome where
  | returned
  | raisedFailed
  | raisedTimeout
deriving DecidableEq, Repr

/-- One run of the polling loop: how it ended, how many `get_request` polls
it made, and the argument of each `time.sleep` call in order. -/
structure WaitRun where
  outcome : WaitOutcome
  polls : Nat
  sleeps : List Nat
deriving DecidableEq, Repr

/-- The `while wait_timeout > time.time(): time.sleep(5); ...` loop.
`deadline` is the shadowed `wait_timeout` (start time plus timeout), `t` the
current clock, `k` the index of the next poll in the status oracle. -/
def waitLoop (status : Nat → String) (deadline t k : Nat) : WaitRun :=
  if t < deadline then
    if status k = "DONE" then ⟨.returned, 1, [5]⟩
    else if status k = "FAILED" then ⟨.raisedFailed, 1, [5]⟩
    else
      let r := waitLoop status deadline (t + 5) (k + 1)
      ⟨r.outcome, r.polls + 1, 5 :: r.sleeps⟩
  else ⟨.raisedTimeout, 0, []⟩
termination_by deadline - t

/-- `_wait_for_completion(profitbricks, promise, wait_timeout, msg)`.
`promise` is `none` when falsy; `t0` is the value of `time.time()` at
entry. -/
def wait_for_completion (status : Nat → String) (promise : Option String)
    (wait_timeout t0 : Nat) : WaitRun :=
  match promise with
  | none => ⟨.returned, 0, []⟩
  | some _ => waitLoop status (t0 + wait_timeout) t0 0

/-! ### Lemmas about the polling loop -/

/-- The k-th polled status is neither of the two terminal statuses. -/
def nonTerminal (status : Nat → String) (j : Nat) : Prop :=
  status j ≠ "DONE" ∧ status j ≠ "FAILED"

instance (status : Nat → String) (j : Nat) : Decidable (nonTerminal status j) := by
  unfold nonTerminal
  infer_instance

lemma waitLoop_eq (status : Nat → String) (deadline t k : Nat) :
    waitLoop status deadline t k =
      if t < deadline then
        if status k = "DONE" then ⟨.returned, 1, [5]⟩
        else if status k = "FAILED" then ⟨.raisedFailed, 1, [5]⟩
        else
          let r := waitLoop status deadline (t + 5) (k + 1)
          ⟨r.outcome, r.polls + 1, 5 :: r.sleeps⟩
      else ⟨.raisedTimeout, 0, []⟩ := by
  rw [waitLoop]

lemma waitLoop_stop (status : Nat → String) (d t k : Nat) (ht : ¬ t < d) :
    waitLoop status d t k =
      ⟨.raisedTimeout, (d - t + 4) / 5, List.replicate ((d - t + 4) / 5) 5⟩ := by
  rw [waitLoop_eq, if_neg ht]
  have h5 : (d - t + 4) / 5 = 0 := by omega
  rw [h5]
  rfl

/-- Every run of the loop is of one of three shapes: it stops at a first
terminal `DONE` poll within the window, stops at a first terminal `FAILED`
poll within the window, or polls non-terminal statuses through the whole
window and times out. -/
lemma waitLoop_cases (status : Nat → String) (d : Nat) :
    ∀ n t k, d - t ≤ n →
      (∃ m, t + 5 * m < d ∧ status (k + m) = "DONE" ∧
        (∀ j, j < m → nonTerminal status (k + j)) ∧
        waitLoop status d t k = ⟨.returned, m + 1, List.replicate (m + 1) 5⟩)
      ∨ (∃ m, t + 5 * m < d ∧ status (k + m) = "FAILED" ∧
        (∀ j, j < m → nonTerminal status (k + j)) ∧
        waitLoop status d t k =
          ⟨.raisedFailed, m + 1, List.replicate (m + 1) 5⟩)
      ∨ ((∀ m, t + 5 * m < d → nonTerminal status (k + m)) ∧
        waitLoop status d t k =
          ⟨.raisedTimeout, (d - t + 4) / 5,
            List.replicate ((d - t + 4) / 5) 5⟩) := by
  intro n
  induction n with
  | zero =>
    intro t k h
    have ht : ¬ t < d := by omega
    exact Or.inr (Or.inr ⟨fun m hm => absurd hm (by omega),
      waitLoop_stop status d t k ht⟩)
  | succ n ih =>
    intro t k h
    by_cases ht : t < d
    · by_cases hD : status k = "DONE"
      · refine Or.inl ⟨0, by omega, by simpa using hD, by omega, ?_⟩
        rw [waitLoop_eq, if_pos ht, if_pos hD]
        rfl
      · by_cases hF : status k = "FAILED"
        · refine Or.inr (Or.inl ⟨0, by omega, by simpa using hF, by omega, ?_⟩)
          rw [waitLoop_eq, if_pos ht, if_neg hD, if_pos hF]
          rfl
        · have hstep : waitLoop status d t k =
              ⟨(waitLoop status d (t + 5) (k + 1)).outcome,
               (waitLoop status d (t + 5) (k + 1)).polls + 1,
               5 :: (waitLoop status d (t + 5) (k + 1)).sleeps⟩ := by
            rw [waitLoop_eq, if_pos ht, if_neg hD, if_neg hF]
          rcases ih (t + 5) (k + 1) (by omega) with
            ⟨m, hm, hdone, hpre, hrun⟩ | ⟨m, hm, hfail, hpre, hrun⟩ |
            ⟨hall, hrun⟩
          · refine Or.inl ⟨m + 1, by omega, ?_, ?_, ?_⟩
            · have e : k + (m + 1) = k + 1 + m := by omega
              rw [e]; exact hdone
            · intro j hj
              cases j with
              | zero => exact ⟨hD, hF⟩
              | succ j =>
                have e : k + (j + 1) = k + 1 + j := by omega
                rw [e]; exact hpre j (by omega)
            · rw [hstep, hrun]
              rfl
          · refine Or.inr (Or.inl ⟨m + 1, by omega, ?_, ?_, ?_⟩)
            · have e : k + (m + 1) = k + 1 + m := by omega
              rw [e]; exact hfail
            · intro j hj
              cases j with
              | zero => exact ⟨hD, hF⟩
              | succ j =>
                have e : k + (j + 1) = k + 1 + j := by omega
                rw [e]; exact hpre j (by omega)
            · rw [hstep, hrun]
              rfl
          · refine Or.inr (Or.inr ⟨?_, ?_⟩)
            · intro m hm
              cases m with
              | zero => exact ⟨hD, hF⟩
              | succ m =>
                have e : k + (m + 1) = k + 1 + m := by omega
                rw [e]; exact hall m (by omega)
            · rw [hstep, hrun]
              have e : (d - t + 4) / 5 = (d - (t + 5) + 4) / 5 + 1 := by omega
              rw [e]
              rfl
    · exact Or.inr (Or.inr ⟨fun m hm => absurd hm (by omega),
        waitLoop_stop status d t k ht⟩)

/-- `waitLoop_cases` at the natural fuel. -/
lemma waitLoop_trichotomy (status : Nat → String) (d t k : Nat) :
    (∃ m, t + 5 * m < d ∧ status (k + m) = "DONE" ∧
      (∀ j, j < m → nonTerminal status (k + j)) ∧
      waitLoop status d t k = ⟨.returned, m + 1, List.replicate (m + 1) 5⟩)
    ∨ (∃ m, t + 5 * m < d ∧ status (k + m) = "FAILED" ∧
      (∀ j, j < m → nonTerminal status (k + j)) ∧
      waitLoop status d t k = ⟨.raisedFailed, m + 1, List.replicate (m + 1) 5⟩)
    ∨ ((∀ m, t + 5 * m < d → nonTerminal status (k + m)) ∧
      waitLoop status d t k =
        ⟨.raisedTimeout, (d - t + 4) / 5, List.replicate ((d - t + 4) / 5) 5⟩) :=
  waitLoop_cases status d (d - t) t k (Nat.le_refl _)

/-! ### Lemmas about the regex -/

lemma dash_eq_some (s t : List Char) : dash s = some t ↔ s = '-' :: t := by
  cases s with
  | nil => simp [dash]
  | cons c s =>
    by_cases hc : c = '-'
    · subst hc; simp [dash]
    · simp [dash, hc]

lemma takeWord_eq_some (n : Nat) : ∀ s t : List Char,
    takeWord n s = some t ↔
      ∃ g, s = g ++ t ∧ g.length = n ∧ ∀ c ∈ g, isWordChar c = true := by
  induction n with
  | zero =>
    intro s t
    constructor
    · intro h
      rw [show takeWord 0 s = some s from rfl] at h
      obtain rfl := Option.some_inj.mp h
      exact ⟨[], by simp, rfl, by simp⟩
    · rintro ⟨g, rfl, hg, _⟩
      obtain rfl := List.eq_nil_of_length_eq_zero hg
      rfl
  | succ n ih =>
    intro s t
    cases s with
    | nil =>
      constructor
      · intro h; exact absurd h (by simp [takeWord])
      · rintro ⟨g, hgt, hlen, _⟩
        exfalso
        have hl := congrArg List.length hgt
        simp at hl
        omega
    | cons c s =>
      by_cases hw : isWordChar c
      · rw [show takeWord (n + 1) (c :: s) = takeWord n s from by
          simp [takeWord, hw]]
        rw [ih s t]
        constructor
        · rintro ⟨g, rfl, hlen, hall⟩
          refine ⟨c :: g, rfl, by simp [hlen], ?_⟩
          intro x hx
          rcases List.mem_cons.mp hx with rfl | hx
          · exact hw
          · exact hall x hx
        · rintro ⟨g, hgt, hlen, hall⟩
          cases g with
          | nil => simp at hlen
          | cons c2 g =>
            rw [List.cons_append] at hgt
            injection hgt with h1 h2
            subst h1
            exact ⟨g, h2, by simpa using hlen,
              fun x hx => hall x (List.mem_cons_of_mem _ hx)⟩
      · constructor
        · intro h
          exfalso
          simp [takeWord, hw] at h
        · rintro ⟨g, hgt, hlen, hall⟩
          exfalso
          cases g with
          | nil => simp at hlen
          | cons c2 g =>
            rw [List.cons_append] at hgt
            injection hgt with h1 h2
            subst h1
            exact hw (hall c (List.mem_cons_self _ _))

lemma takeWord_consume (n : Nat) (g t : List Char) (hlen : g.length = n)
    (hall : ∀ c ∈ g, isWordChar c = true) : takeWord n (g ++ t) = some t :=
  (takeWord_eq_some n (g ++ t) t).mpr ⟨g, rfl, hlen, hall⟩

/-- The language the regex accepts at the start of a string: five groups of
word characters of sizes 8, 4, 4, 4, 12, joined by hyphens, followed by an
arbitrary (possibly empty) tail. -/
def uuidShape (s : List Char) : Prop :=
  ∃ g1 g2 g3 g4 g5 rest : List Char,
    s = g1 ++ '-' :: (g2 ++ '-' :: (g3 ++ '-' :: (g4 ++ '-' :: (g5 ++ rest)))) ∧
    g1.length = 8 ∧ g2.length = 4 ∧ g3.length = 4 ∧ g4.length = 4 ∧
    g5.length = 12 ∧
    (∀ c ∈ g1, isWordChar c = true) ∧ (∀ c ∈ g2, isWordChar c = true) ∧
    (∀ c ∈ g3, isWordChar c = true) ∧ (∀ c ∈ g4, isWordChar c = true) ∧
    (∀ c ∈ g5, isWordChar c = true)

lemma uuid_match_iff_shape (s : String) :
    uuid_match s = true ↔ uuidShape s.data := by
  rw [uuid_match, Option.isSome_iff_exists]
  constructor
  · rintro ⟨tail, h⟩
    rw [uuidMatchCore] at h
    rw [Option.bind_eq_some] at h
    obtain ⟨t1, h1, h⟩ := h
    rw [Option.bind_eq_some] at h
    obtain ⟨t2, h2, h⟩ := h
    rw [Option.bind_eq_some] at h
    obtain ⟨t3, h3, h⟩ := h
    rw [Option.bind_eq_some] at h
    obtain ⟨t4, h4, h⟩ := h
    rw [Option.bind_eq_some] at h
    obtain ⟨t5, h5, h⟩ := h
    rw [Option.bind_eq_some] at h
    obtain ⟨t6, h6, h⟩ := h
    rw [Option.bind_eq_some] at h
    obtain ⟨t7, h7, h⟩ := h
    rw [Option.bind_eq_some] at h
    obtain ⟨t8, h8, h9⟩ := h
    obtain ⟨g1, e1, l1, w1⟩ := (takeWord_eq_some _ _ _).mp h1
    obtain e2 := (dash_eq_some _ _).mp h2
    obtain ⟨g2, e3, l2, w2⟩ := (takeWord_eq_some _ _ _).mp h3
    obtain e4 := (dash_eq_some _ _).mp h4
    obtain ⟨g3, e5, l3, w3⟩ := (takeWord_eq_some _ _ _).mp h5
    obtain e6 := (dash_eq_some _ _).mp h6
    obtain ⟨g4, e7, l4, w4⟩ := (takeWord_eq_some _ _ _).mp h7
    obtain e8 := (dash_eq_some _ _).mp h8
    obtain ⟨g5, e9, l5, w5⟩ := (takeWord_eq_some _ _ _).mp h9
    refine ⟨g1, g2, g3, g4, g5, tail, ?_, l1, l2, l3, l4, l5,
      w1, w2, w3, w4, w5⟩
    rw [e1, e2, e3, e4, e5, e6, e7, e8, e9]
  · rintro ⟨g1, g2, g3, g4, g5, rest, hs, l1, l2, l3, l4, l5,
      w1, w2, w3, w4, w5⟩
    refine ⟨rest, ?_⟩
    rw [hs, uuidMatchCore]
    rw [takeWord_consume 8 g1 _ l1 w1, Option.some_bind]
    rw [show dash ('-' :: (g2 ++ '-' :: (g3 ++ '-' :: (g4 ++ '-' :: (g5 ++ rest))))) =
      some (g2 ++ '-' :: (g3 ++ '-' :: (g4 ++ '-' :: (g5 ++ rest)))) from by
        simp [dash]]
    rw [Option.some_bind]
    rw [takeWord_consume 4 g2 _ l2 w2, Option.some_bind]
    rw [show dash ('-' :: (g3 ++ '-' :: (g4 ++ '-' :: (g5 ++ rest)))) =
      some (g3 ++ '-' :: (g4 ++ '-' :: (g5 ++ rest))) from by simp [dash]]
    rw [Option.some_bind]
    rw [takeWord_consume 4 g3 _ l3 w3, Option.some_bind]
    rw [show dash ('-' :: (g4 ++ '-' :: (g5 ++ rest))) =
      some (g4 ++ '-' :: (g5 ++ rest)) from by simp [dash]]
    rw [Option.some_bind]
    rw [takeWord_consume 4 g4 _ l4 w4, Option.some_bind]
    rw [show dash ('-' :: (g5 ++ rest)) = some (g5 ++ rest) from by simp [dash]]
    rw [Option.some_bind]
    exact takeWord_consume 12 g5 rest l5 w5

/-! ### Lemmas about the resolution loops -/

lemma dcLoop_first (pb : Provider) (s : String) :
    ∀ pre (d : DCItem) post, (∀ p ∈ pre, pb.dcName p.id ≠ s) →
      pb.dcName d.id = s → (dcLoop pb (pre ++ d :: post) s).1 = d.id := by
  intro pre
  induction pre with
  | nil =>
    intro d post _ hd
    simp [dcLoop, hd]
  | cons p pre ih =>
    intro d post hpre hd
    have hp : ¬ s = pb.dcName p.id := fun h => hpre p (by simp) h.symm
    simp only [List.cons_append, dcLoop, if_neg hp]
    exact ih d post (fun q hq => hpre q (by simp [hq])) hd

lemma dcLoop_miss (pb : Provider) (s : String) :
    ∀ items, (∀ p ∈ items, pb.dcName p.id ≠ s) →
      (dcLoop pb items s).1 = s := by
  intro items
  induction items with
  | nil => intro _; rfl
  | cons p rest ih =>
    intro hmiss
    have hp : ¬ s = pb.dcName p.id := fun h => hmiss p (by simp) h.symm
    simp only [dcLoop, if_neg hp]
    exact ih (fun q hq => hmiss q (by simp [hq]))

lemma dcLoop_effects (pb : Provider) (s : String) :
    ∀ items, ∀ e ∈ (dcLoop pb items s).2,
      ∃ id, e = Effect.sdk (.getDatacenter id) := by
  intro items
  induction items with
  | nil => intro e he; simp [dcLoop] at he
  | cons p rest ih =>
    intro e he
    by_cases hp : s = pb.dcName p.id
    · simp [dcLoop, if_pos hp] at he
      exact ⟨p.id, he⟩
    · simp only [dcLoop, if_neg hp] at he
      rcases List.mem_cons.mp he with rfl | he2
      · exact ⟨p.id, rfl⟩
      · exact ih e he2

lemma nameLoop_first (s : String) :
    ∀ pre (v : NamedItem) post, (∀ p ∈ pre, p.name ≠ s) →
      v.name = s → nameLoop (pre ++ v :: post) s = v.id := by
  intro pre
  induction pre with
  | nil =>
    intro v post _ hv
    simp [nameLoop, hv]
  | cons p pre ih =>
    intro v post hpre hv
    have hp : ¬ s = p.name := fun h => hpre p (by simp) h.symm
    simp only [List.cons_append, nameLoop, if_neg hp]
    exact ih v post (fun q hq => hpre q (by simp [hq])) hv

lemma nameLoop_miss (s : String) :
    ∀ items, (∀ p ∈ items, p.name ≠ s) → nameLoop items s = s := by
  intro items
  induction items with
  | nil => intro _; rfl
  | cons p rest ih =>
    intro hmiss
    have hp : ¬ s = p.name := fun h => hmiss p (by simp) h.symm
    simp only [nameLoop, if_neg hp]
    exact ih (fun q hq => hmiss q (by simp [hq]))

lemma locateDatacenter_uuid (pb : Provider) (s : String)
    (h : uuid_match s = true) : locateDatacenter pb s = (s, []) := by
  simp [locateDatacenter, h]

lemma locateVolume_uuid (pb : Provider) (dcId s : String)
    (h : uuid_match s = true) : locateVolume pb dcId s = (s, []) := by
  simp [locateVolume, h]

lemma locateSnapshot_uuid (pb : Provider) (s : String)
    (h : uuid_match s = true) : locateSnapshot pb s = (s, []) := by
  simp [locateSnapshot, h]

lemma locateDatacenter_effects (pb : Provider) (s : String) :
    ∀ e ∈ (locateDatacenter pb s).2,
      Effect.isSdk e = true ∧ Effect.isGetRequest e = false := by
  intro e he
  unfold locateDatacenter at he
  by_cases h : uuid_match s
  · simp [h] at he
  · simp only [h, Bool.false_eq_true, if_false] at he
    rcases List.mem_cons.mp he with rfl | he2
    · exact ⟨rfl, rfl⟩
    · obtain ⟨id, rfl⟩ := dcLoop_effects pb s pb.datacenters e he2
      exact ⟨rfl, rfl⟩

lemma locateVolume_effects (pb : Provider) (dcId s : String) :
    ∀ e ∈ (locateVolume pb dcId s).2,
      Effect.isSdk e = true ∧ Effect.isGetRequest e = false := by
  intro e he
  unfold locateVolume at he
  by_cases h : uuid_match s
  · simp [h] at he
  · simp only [h, Bool.false_eq_true, if_false, List.mem_singleton] at he
    subst he
    exact ⟨rfl, rfl⟩

lemma locateSnapshot_effects (pb : Provider) (s : String) :
    ∀ e ∈ (locateSnapshot pb s).2,
      Effect.isSdk e = true ∧ Effect.isGetRequest e = false := by
  intro e he
  unfold locateSnapshot at he
  by_cases h : uuid_match s
  · simp [h] at he
  · simp only [h, Bool.false_eq_true, if_false, List.mem_singleton] at he
    subst he
    exact ⟨rfl, rfl⟩

lemma create_snapshot_effects (params : Params) (pb : Provider) :
    ∀ e ∈ (create_snapshot params pb).2,
      Effect.isSdk e = true ∧ Effect.isGetRequest e = false := by
  intro e he
  unfold create_snapshot at he
  cases hd : params.datacenter with
  | none => rw [hd] at he; simp at he
  | some datacenter0 =>
    rw [hd] at he
    cases hv : params.volume with
    | none =>
      rw [hv] at he
      exact locateDatacenter_effects pb datacenter0 e he
    | some volume0 =>
      rw [hv] at he
      simp only [List.mem_append, List.mem_singleton] at he
      rcases he with (he | he) | rfl
      · exact locateDatacenter_effects pb datacenter0 e he
      · exact locateVolume_effects pb _ volume0 e he
      · exact ⟨rfl, rfl⟩

lemma remove_snapshot_effects (params : Params) (pb : Provider) :
    ∀ e ∈ (remove_snapshot params pb).2,
      Effect.isSdk e = true ∧ Effect.isGetRequest e = false := by
  intro e he
  unfold remove_snapshot at he
  cases hs : params.snapshot with
  | none => rw [hs] at he; simp at he
  | some snapshot0 =>
    rw [hs] at he
    simp only [List.mem_append, List.mem_singleton] at he
    rcases he with he | rfl
    · exact locateSnapshot_effects pb snapshot0 e he
    · exact ⟨rfl, rfl⟩

lemma main_effects (params : Params) (pb : Provider) :
    ∀ e ∈ (main params pb).2,
      Effect.isSdk e = true ∧ Effect.isGetRequest e = false := by
  intro e he
  unfold main at he
  by_cases h1 : falsy params.subscription_user
  · simp [h1] at he
  · by_cases h2 : falsy params.subscription_password
    · simp [h1, h2] at he
    · by_cases h3 : params.state = "absent"
      · by_cases h4 : falsy params.snapshot
        · simp [h1, h2, h3, h4] at he
        · simp only [h1, h2, h3, h4, Bool.false_eq_true, if_false, if_true,
            if_pos] at he
          rcases hrs : remove_snapshot params pb with ⟨res, tr⟩
          rw [hrs] at he
          cases res with
          | ok changed =>
            simp only at he
            have := remove_snapshot_effects params pb e
            rw [hrs] at this
            exact this he
          | error err =>
            simp only at he
            have := remove_snapshot_effects params pb e
            rw [hrs] at this
            exact this he
      · by_cases h5 : params.state = "present"
        · by_cases h6 : falsy params.datacenter
          · simp [h1, h2, h3, h5, h6] at he
          · by_cases h7 : falsy params.volume
            · simp [h1, h2, h3, h5, h6, h7] at he
            · simp only [h1, h2, h3, h5, h6, h7, Bool.false_eq_true,
                if_false, if_true, if_pos] at he
              rcases hcs : create_snapshot params pb with ⟨res, tr⟩
              rw [hcs] at he
              cases res with
              | ok snap =>
                simp only at he
                have := create_snapshot_effects params pb e
                rw [hcs] at this
                exact this he
              | error err =>
                simp only at he
                have := create_snapshot_effects params pb e
                rw [hcs] at this
                exact this he
        · simp [h1, h2, h3, h5] at he

/-! ### Concrete fixtures used by witnesses -/

/-- A concrete SDK client. -/
def pb0 : Provider where
  datacenters := [⟨"11111111-1111-1111-1111-111111111111"⟩,
                  ⟨"22222222-2222-2222-2222-222222222222"⟩]
  dcName := fun id =>
    if id = "11111111-1111-1111-1111-111111111111" then "Tardis One"
    else "Other DC"
  volumes := fun _ => [⟨"33333333-3333-3333-3333-333333333333", "vol01"⟩]
  snapshots := [⟨"44444444-4444-4444-4444-444444444444", "my snap"⟩]
  createSnap := fun dc vol _ _ => ⟨dc ++ "/" ++ vol⟩
  removeSnap := fun snap => snap = "44444444-4444-4444-4444-444444444444"

/-- Status oracle that never reaches a terminal state. -/
def statusRunning : Nat → String := fun _ => "RUNNING"

/-- Status oracle whose second poll is DONE. -/
def statusDoneAt1 : Nat → String := fun k => if k = 1 then "DONE" else "RUNNING"

/-- Status oracle whose first poll is FAILED. -/
def statusFailedAt0 : Nat → String :=
  fun k => if k = 0 then "FAILED" else "RUNNING"

lemma statusRunning_nonTerminal (m : Nat) : nonTerminal statusRunning m := by
  constructor
  · show ¬ ("RUNNING" : String) = "DONE"
    decide
  · show ¬ ("RUNNING" : String) = "FAILED"
    decide

/-! ### Claim theorems about the polling helper -/

/-- C3: with a non-empty promise, `_wait_for_completion` returns normally
iff some polled status within the wait window is DONE (all earlier polls
non-terminal), raises the failure exception iff some polled status within
the window is FAILED (all earlier polls non-terminal), and raises the
timeout exception iff every poll within the window is non-terminal; with a
falsy promise it returns immediately without polling.  The k-th poll
happens within the window iff `5 * k < wait_timeout` (the loop condition
compares the clock, which advances by 5 per sleep, against start time plus
`wait_timeout`). -/
theorem wait_for_completion_spec (status : Nat → String) (rid : String)
    (wait_timeout t0 : Nat) :
    ((wait_for_completion status (some rid) wait_timeout t0).outcome =
        WaitOutcome.returned ↔
      ∃ m, 5 * m < wait_timeout ∧ status m = "DONE" ∧
        ∀ j, j < m → nonTerminal status j)
    ∧ ((wait_for_completion status (some rid) wait_timeout t0).outcome =
        WaitOutcome.raisedFailed ↔
      ∃ m, 5 * m < wait_timeout ∧ status m = "FAILED" ∧
        ∀ j, j < m → nonTerminal status j)
    ∧ ((wait_for_completion status (some rid) wait_timeout t0).outcome =
        WaitOutcome.raisedTimeout ↔
      ∀ m, 5 * m < wait_timeout → nonTerminal status m)
    ∧ wait_for_completion status none wait_timeout t0 =
        ⟨WaitOutcome.returned, 0, []⟩ := by
  have eq0 : wait_for_completion status (some rid) wait_timeout t0 =
      waitLoop status (t0 + wait_timeout) t0 0 := rfl
  have tri := waitLoop_trichotomy status (t0 + wait_timeout) t0 0
  simp only [Nat.zero_add] at tri
  refine ⟨?_, ?_, ?_, rfl⟩
  · rcases tri with ⟨m, hm, hD, hpre, hrun⟩ | ⟨m, hm, hF, hpre, hrun⟩ |
      ⟨hall, hrun⟩
    · constructor
      · intro _; exact ⟨m, by omega, hD, hpre⟩
      · intro _; rw [eq0, hrun]
    · constructor
      · intro hret; rw [eq0, hrun] at hret; simp at hret
      · rintro ⟨m2, hm2, hD2, hpre2⟩
        exfalso
        rcases lt_trichotomy m m2 with h | h | h
        · exact (hpre2 m h).2 hF
        · subst h; rw [hD2] at hF; exact absurd hF (by decide)
        · exact (hpre m2 h).1 hD2
    · constructor
      · intro hret; rw [eq0, hrun] at hret; simp at hret
      · rintro ⟨m2, hm2, hD2, _⟩
        exact absurd hD2 (hall m2 (by omega)).1
  · rcases tri with ⟨m, hm, hD, hpre, hrun⟩ | ⟨m, hm, hF, hpre, hrun⟩ |
      ⟨hall, hrun⟩
    · constructor
      · intro hf; rw [eq0, hrun] at hf; simp at hf
      · rintro ⟨m2, hm2, hF2, hpre2⟩
        exfalso
        rcases lt_trichotomy m m2 with h | h | h
        · exact (hpre2 m h).1 hD
        · subst h; rw [hF2] at hD; exact absurd hD (by decide)
        · exact (hpre m2 h).2 hF2
    · constructor
      · intro _; exact ⟨m, by omega, hF, hpre⟩
      · intro _; rw [eq0, hrun]
    · constructor
      · intro hf; rw [eq0, hrun] at hf; simp at hf
      · rintro ⟨m2, hm2, hF2, _⟩
        exact absurd hF2 (hall m2 (by omega)).2
  · rcases tri with ⟨m, hm, hD, hpre, hrun⟩ | ⟨m, hm, hF, hpre, hrun⟩ |
      ⟨hall, hrun⟩
    · constructor
      · intro hto; rw [eq0, hrun] at hto; simp at hto
      · intro hallm; exact absurd hD (hallm m (by omega)).1
    · constructor
      · intro hto; rw [eq0, hrun] at hto; simp at hto
      · intro hallm; exact absurd hF (hallm m (by omega)).2
    · constructor
      · intro _; intro m hm; exact hall m (by omega)
      · intro _; rw [eq0, hrun]

/-- Witness for C3: a DONE at the second poll returns, a FAILED at the
first poll raises the failure exception, a status that never turns
terminal raises the timeout exception, and a falsy promise returns with
zero polls. -/
theorem wait_for_completion_spec_witness :
    (wait_for_completion statusDoneAt1 (some "req-1") 20 7).outcome =
      WaitOutcome.returned
    ∧ (wait_for_completion statusFailedAt0 (some "req-2") 20 0).outcome =
      WaitOutcome.raisedFailed
    ∧ (wait_for_completion statusRunning (some "req-3") 3 5).outcome =
      WaitOutcome.raisedTimeout
    ∧ wait_for_completion statusRunning none 600 0 =
      ⟨WaitOutcome.returned, 0, []⟩ := by
  refine ⟨?_, ?_, ?_,
    (wait_for_completion_spec statusRunning "req-0" 600 0).2.2.2⟩
  · refine (wait_for_completion_spec statusDoneAt1 "req-1" 20 7).1.mpr
      ⟨1, by omega, by decide, ?_⟩
    intro j hj
    have hj0 : j = 0 := by omega
    subst hj0
    exact ⟨by decide, by decide⟩
  · exact (wait_for_completion_spec statusFailedAt0 "req-2" 20 0).2.1.mpr
      ⟨0, by omega, by decide, fun j hj => absurd hj (by omega)⟩
  · refine (wait_for_completion_spec statusRunning "req-3" 3 5).2.2.1.mpr ?_
    intro m _
    exact statusRunning_nonTerminal m

/-- C4: the polling loop always terminates, and for every status oracle
the number of polls it performs is at most `⌈wait_timeout / 5⌉`
(`(wait_timeout + 4) / 5` in natural-number arithmetic): each iteration
sleeps 5 seconds and the loop condition compares the clock against start
time plus `wait_timeout`. -/
theorem wait_polls_bounded (status : Nat → String) (promise : Option String)
    (wait_timeout t0 : Nat) :
    (wait_for_completion status promise wait_timeout t0).polls ≤
      (wait_timeout + 4) / 5 := by
  cases promise with
  | none => simp [wait_for_completion]
  | some rid =>
    rcases waitLoop_trichotomy status (t0 + wait_timeout) t0 0 with
      ⟨m, hm, _, _, hrun⟩ | ⟨m, hm, _, _, hrun⟩ | ⟨_, hrun⟩
    · show (waitLoop status (t0 + wait_timeout) t0 0).polls ≤ _
      rw [hrun]; simp; omega
    · show (waitLoop status (t0 + wait_timeout) t0 0).polls ≤ _
      rw [hrun]; simp; omega
    · show (waitLoop status (t0 + wait_timeout) t0 0).polls ≤ _
      rw [hrun]; simp

/-- C6: the waiting strategy is a flat timeout: every sleep between polls
is the constant 5 (the interval never grows or shrinks), a FAILED status
ends the loop at once (the poll count is one more than the index of the
first FAILED poll, so a failure is never retried), and on timeout the loop
has run through the whole window `(wait_timeout + 4) / 5`, the single
deadline being start time plus `wait_timeout`. -/
theorem wait_flat_interval (status : Nat → String) (rid : String)
    (wait_timeout t0 : Nat) :
    (wait_for_completion status (some rid) wait_timeout t0).sleeps =
      List.replicate
        (wait_for_completion status (some rid) wait_timeout t0).polls 5
    ∧ ((wait_for_completion status (some rid) wait_timeout t0).outcome =
        WaitOutcome.raisedFailed →
      ∃ m, (wait_for_completion status (some rid) wait_timeout t0).polls =
          m + 1 ∧
        status m = "FAILED" ∧ ∀ j, j < m → nonTerminal status j)
    ∧ ((wait_for_completion status (some rid) wait_timeout t0).outcome =
        WaitOutcome.raisedTimeout →
      (wait_for_completion status (some rid) wait_timeout t0).polls =
        (wait_timeout + 4) / 5) := by
  have eq0 : wait_for_completion status (some rid) wait_timeout t0 =
      waitLoop status (t0 + wait_timeout) t0 0 := rfl
  have tri := waitLoop_trichotomy status (t0 + wait_timeout) t0 0
  simp only [Nat.zero_add] at tri
  refine ⟨?_, ?_, ?_⟩
  · rcases tri with ⟨m, _, _, _, hrun⟩ | ⟨m, _, _, _, hrun⟩ | ⟨_, hrun⟩ <;>
      rw [eq0, hrun]
  · rcases tri with ⟨m, hm, hD, hpre, hrun⟩ | ⟨m, hm, hF, hpre, hrun⟩ |
      ⟨hall, hrun⟩
    · intro hf; rw [eq0, hrun] at hf; simp at hf
    · intro _; exact ⟨m, by rw [eq0, hrun], hF, hpre⟩
    · intro hf; rw [eq0, hrun] at hf; simp at hf
  · rcases tri with ⟨m, hm, hD, hpre, hrun⟩ | ⟨m, hm, hF, hpre, hrun⟩ |
      ⟨hall, hrun⟩
    · intro hto; rw [eq0, hrun] at hto; simp at hto
    · intro hto; rw [eq0, hrun] at hto; simp at hto
    · intro _; rw [eq0, hrun]; simp

/-- Witness for C6: on a never-terminal oracle with `wait_timeout = 12` the
loop sleeps `[5, 5, 5]` and polls exactly `(12 + 4) / 5 = 3` times; on a
first-poll FAILED it stops after one poll. -/
theorem wait_flat_interval_witness :
    (wait_for_completion statusRunning (some "req-4") 12 0).sleeps =
      [5, 5, 5]
    ∧ (wait_for_completion statusRunning (some "req-4") 12 0).polls = 3
    ∧ (wait_for_completion statusFailedAt0 (some "req-5") 20 0).polls = 1 := by
  have h := wait_flat_interval statusRunning "req-4" 12 0
  have hto : (wait_for_completion statusRunning (some "req-4") 12 0).outcome =
      WaitOutcome.raisedTimeout := by
    rcases waitLoop_trichotomy statusRunning (0 + 12) 0 0 with
      ⟨m, _, hD, _, _⟩ | ⟨m, _, hF, _, _⟩ | ⟨_, hrun⟩
    · exact absurd hD (statusRunning_nonTerminal (0 + m)).1
    · exact absurd hF (statusRunning_nonTerminal (0 + m)).2
    · show (waitLoop statusRunning (0 + 12) 0 0).outcome = _
      rw [hrun]
  have hp : (wait_for_completion statusRunning (some "req-4") 12 0).polls =
      3 := by
    have h3 := h.2.2 hto
    omega
  refine ⟨?_, hp, ?_⟩
  · rw [h.1, hp]; rfl
  · have h2 := wait_flat_interval statusFailedAt0 "req-5" 20 0
    have hfa : (wait_for_completion statusFailedAt0 (some "req-5") 20 0).outcome
        = WaitOutcome.raisedFailed := by
      rcases waitLoop_trichotomy statusFailedAt0 (0 + 20) 0 0 with
        ⟨m, _, hD, hpre, _⟩ | ⟨m, _, _, _, hrun⟩ | ⟨hall, _⟩
      · exfalso
        cases m with
        | zero => exact absurd hD (by decide)
        | succ m => exact (hpre 0 (by omega)).2 (by decide)
      · show (waitLoop statusFailedAt0 (0 + 20) 0 0).outcome = _
        rw [hrun]
      · exact absurd (by decide : statusFailedAt0 (0 + 0) = "FAILED")
          (hall 0 (by omega)).2
    obtain ⟨m, hm, hF, hpre⟩ := h2.2.1 hfa
    have hm0 : m = 0 := by
      by_contra hne
      exact (hpre 0 (by omega)).2 (by decide)
    rw [hm, hm0]

/-! ### Further helper lemmas and fixtures -/

lemma locateDatacenter_not_uuid (pb : Provider) (s : String)
    (h : uuid_match s = false) :
    locateDatacenter pb s =
      ((dcLoop pb pb.datacenters s).1,
        Effect.sdk .listDatacenters :: (dcLoop pb pb.datacenters s).2) := by
  simp [locateDatacenter, h]

lemma locateVolume_not_uuid (pb : Provider) (dcId s : String)
    (h : uuid_match s = false) :
    locateVolume pb dcId s =
      (nameLoop (pb.volumes dcId) s, [Effect.sdk (.listVolumes dcId)]) := by
  simp [locateVolume, h]

lemma locateSnapshot_not_uuid (pb : Provider) (s : String)
    (h : uuid_match s = false) :
    locateSnapshot pb s =
      (nameLoop pb.snapshots s, [Effect.sdk .listSnapshots]) := by
  simp [locateSnapshot, h]

/-- Concrete params: a create invocation with names to resolve. -/
def params1 : Params :=
  ⟨some "Tardis One", some "vol01", none, some "snap one",
   some "pre-deployment", some "user", some "pass", true, 600, "present"⟩

/-- Concrete params: a remove invocation with a name to resolve. -/
def params2 : Params :=
  ⟨none, none, some "my snap", none, none,
   some "user", some "pass", true, 500, "absent"⟩

/-- Concrete params: a state that is neither present nor absent. -/
def params3 : Params :=
  ⟨some "Tardis One", some "vol01", some "my snap", none, none,
   some "user", some "pass", true, 600, "restore"⟩

/-- Concrete params: names that match nothing the client lists. -/
def params4 : Params :=
  ⟨some "ghost dc", some "ghost vol", some "ghost snap", none, none,
   some "user", some "pass", true, 600, "present"⟩

/-- A client on which every resource is named with a string that the UUID
pattern accepts (underscores and non-hexadecimal letters included). -/
def pbNames : Provider where
  datacenters := [⟨"realid-1"⟩]
  dcName := fun _ => "zzzz_ZZ9-ab_c-wxyz-QQ_4-hello_world_"
  volumes := fun _ => [⟨"realid-2", "zzzz_ZZ9-ab_c-wxyz-QQ_4-hello_world_"⟩]
  snapshots := [⟨"realid-3", "zzzz_ZZ9-ab_c-wxyz-QQ_4-hello_world_"⟩]
  createSnap := fun _ _ _ _ => ⟨"r"⟩
  removeSnap := fun _ => true

/-! ### Claim theorems about resolution, dispatch and effects -/

/-- C2: for each of the three resource types, a string the UUID pattern
accepts is passed through unchanged, and a string it rejects is resolved
by consulting the corresponding list call: it becomes the id of the first
listed resource whose name equals it exactly. -/
theorem name_to_id_resolution (pb : Provider) :
    (∀ s dcId, uuid_match s = true →
      (locateDatacenter pb s).1 = s ∧ (locateVolume pb dcId s).1 = s ∧
      (locateSnapshot pb s).1 = s)
    ∧ (∀ s pre d post, uuid_match s = false →
        pb.datacenters = pre ++ d :: post →
        (∀ p ∈ pre, pb.dcName p.id ≠ s) → pb.dcName d.id = s →
        (locateDatacenter pb s).1 = d.id ∧
        Effect.sdk SdkCall.listDatacenters ∈ (locateDatacenter pb s).2)
    ∧ (∀ s dcId pre v post, uuid_match s = false →
        pb.volumes dcId = pre ++ v :: post →
        (∀ p ∈ pre, p.name ≠ s) → v.name = s →
        (locateVolume pb dcId s).1 = v.id ∧
        Effect.sdk (SdkCall.listVolumes dcId) ∈ (locateVolume pb dcId s).2)
    ∧ (∀ s pre v post, uuid_match s = false →
        pb.snapshots = pre ++ v :: post →
        (∀ p ∈ pre, p.name ≠ s) → v.name = s →
        (locateSnapshot pb s).1 = v.id ∧
        Effect.sdk SdkCall.listSnapshots ∈ (locateSnapshot pb s).2) := by
  refine ⟨?_, ?_, ?_, ?_⟩
  · intro s dcId h
    rw [locateDatacenter_uuid pb s h, locateVolume_uuid pb dcId s h,
      locateSnapshot_uuid pb s h]
    exact ⟨rfl, rfl, rfl⟩
  · intro s pre d post hm hlist hpre hd
    rw [locateDatacenter_not_uuid pb s hm]
    constructor
    · show (dcLoop pb pb.datacenters s).1 = d.id
      rw [hlist]
      exact dcLoop_first pb s pre d post hpre hd
    · exact List.mem_cons_self _ _
  · intro s dcId pre v post hm hlist hpre hv
    rw [locateVolume_not_uuid pb dcId s hm]
    constructor
    · show nameLoop (pb.volumes dcId) s = v.id
      rw [hlist]
      exact nameLoop_first s pre v post hpre hv
    · exact List.mem_cons_self _ _
  · intro s pre v post hm hlist hpre hv
    rw [locateSnapshot_not_uuid pb s hm]
    constructor
    · show nameLoop pb.snapshots s = v.id
      rw [hlist]
      exact nameLoop_first s pre v post hpre hv
    · exact List.mem_cons_self _ _

/-- Witness for C2: on a concrete client, a datacenter name resolves past
a non-matching first item to the id of the first exact match, a volume
name and a snapshot name resolve to the matching ids, and a UUID-shaped
string passes through unchanged. -/
theorem name_to_id_resolution_witness :
    (locateDatacenter pb0 "Other DC").1 =
      "22222222-2222-2222-2222-222222222222"
    ∧ (locateVolume pb0 "dc-x" "vol01").1 =
      "33333333-3333-3333-3333-333333333333"
    ∧ (locateSnapshot pb0 "my snap").1 =
      "44444444-4444-4444-4444-444444444444"
    ∧ (locateDatacenter pb0 "99999999-9999-9999-9999-999999999999").1 =
      "99999999-9999-9999-9999-999999999999" := by
  have h := name_to_id_resolution pb0
  refine ⟨?_, ?_, ?_, ?_⟩
  · exact (h.2.1 "Other DC" [⟨"11111111-1111-1111-1111-111111111111"⟩]
      ⟨"22222222-2222-2222-2222-222222222222"⟩ [] (by decide) rfl
      (by decide) (by decide)).1
  · exact (h.2.2.1 "vol01" "dc-x" []
      ⟨"33333333-3333-3333-3333-333333333333", "vol01"⟩ [] (by decide) rfl
      (by decide) (by decide)).1
  · exact (h.2.2.2 "my snap" []
      ⟨"44444444-4444-4444-4444-444444444444", "my snap"⟩ [] (by decide) rfl
      (by decide) (by decide)).1
  · exact (h.1 "99999999-9999-9999-9999-999999999999" "dc-x" (by decide)).1

/-- C8: the UUID test accepts exactly the strings that start with five
word-character groups of sizes 8-4-4-4-12 joined by hyphens — word
characters include underscores and non-hexadecimal letters of either
case, and an arbitrary tail may follow — and every accepted string is
passed through resolution unchanged, whatever the client lists, so such a
string is never resolved by name. -/
theorem uuid_match_characterization (s : String) :
    (uuid_match s = true ↔ uuidShape s.data)
    ∧ (uuid_match s = true → ∀ pb dcId,
        (locateDatacenter pb s).1 = s ∧ (locateVolume pb dcId s).1 = s ∧
        (locateSnapshot pb s).1 = s) := by
  refine ⟨uuid_match_iff_shape s, ?_⟩
  intro h pb dcId
  rw [locateDatacenter_uuid pb s h, locateVolume_uuid pb dcId s h,
    locateSnapshot_uuid pb s h]
  exact ⟨rfl, rfl, rfl⟩

/-- Witness for C8: a string with underscores, non-hexadecimal letters and
trailing text is accepted by the pattern, and a resource bearing exactly
that name on the client can never be reached by name resolution: the
string passes through unchanged for all three resource types. -/
theorem uuid_match_characterization_witness :
    uuid_match "zzzz_ZZ9-ab_c-wxyz-QQ_4-hello_world_ and trailing junk" = true
    ∧ (locateDatacenter pbNames "zzzz_ZZ9-ab_c-wxyz-QQ_4-hello_world_").1 =
      "zzzz_ZZ9-ab_c-wxyz-QQ_4-hello_world_"
    ∧ (locateVolume pbNames "dc" "zzzz_ZZ9-ab_c-wxyz-QQ_4-hello_world_").1 =
      "zzzz_ZZ9-ab_c-wxyz-QQ_4-hello_world_"
    ∧ (locateSnapshot pbNames "zzzz_ZZ9-ab_c-wxyz-QQ_4-hello_world_").1 =
      "zzzz_ZZ9-ab_c-wxyz-QQ_4-hello_world_" := by
  have hm : uuid_match "zzzz_ZZ9-ab_c-wxyz-QQ_4-hello_world_" = true := by
    decide
  have h :=
    (uuid_match_characterization "zzzz_ZZ9-ab_c-wxyz-QQ_4-hello_world_").2
      hm pbNames "dc"
  exact ⟨by decide, h.1, h.2.1, h.2.2⟩

/-- C9: a name that the UUID pattern rejects and that equals no listed
resource name is kept unchanged by resolution, and is then passed
verbatim to the create or remove SDK call; no error is raised on a
lookup miss. -/
theorem lookup_miss_verbatim (pb : Provider) :
    (∀ s, uuid_match s = false →
      (∀ p ∈ pb.datacenters, pb.dcName p.id ≠ s) →
      (locateDatacenter pb s).1 = s)
    ∧ (∀ s dcId, uuid_match s = false →
      (∀ p ∈ pb.volumes dcId, p.name ≠ s) → (locateVolume pb dcId s).1 = s)
    ∧ (∀ s, uuid_match s = false →
      (∀ p ∈ pb.snapshots, p.name ≠ s) → (locateSnapshot pb s).1 = s)
    ∧ (∀ params dc vol, params.datacenter = some dc →
        params.volume = some vol →
        uuid_match dc = false → uuid_match vol = false →
        (∀ p ∈ pb.datacenters, pb.dcName p.id ≠ dc) →
        (∀ p ∈ pb.volumes dc, p.name ≠ vol) →
        (create_snapshot params pb).1 =
          Except.ok (pb.createSnap dc vol params.snapshot_name
            params.description) ∧
        Effect.sdk (SdkCall.createSnapshot dc vol params.snapshot_name
          params.description) ∈ (create_snapshot params pb).2)
    ∧ (∀ params snap, params.snapshot = some snap →
        uuid_match snap = false → (∀ p ∈ pb.snapshots, p.name ≠ snap) →
        (remove_snapshot params pb).1 = Except.ok (pb.removeSnap snap) ∧
        Effect.sdk (SdkCall.removeSnapshot snap) ∈
          (remove_snapshot params pb).2) := by
  refine ⟨?_, ?_, ?_, ?_, ?_⟩
  · intro s hm hmiss
    rw [locateDatacenter_not_uuid pb s hm]
    exact dcLoop_miss pb s pb.datacenters hmiss
  · intro s dcId hm hmiss
    rw [locateVolume_not_uuid pb dcId s hm]
    exact nameLoop_miss s (pb.volumes dcId) hmiss
  · intro s hm hmiss
    rw [locateSnapshot_not_uuid pb s hm]
    exact nameLoop_miss s pb.snapshots hmiss
  · intro params dc vol hdc hvol hmd hmv hmissd hmissv
    have e1 : (locateDatacenter pb dc).1 = dc := by
      rw [locateDatacenter_not_uuid pb dc hmd]
      exact dcLoop_miss pb dc pb.datacenters hmissd
    have e2 : (locateVolume pb dc vol).1 = vol := by
      rw [locateVolume_not_uuid pb dc vol hmv]
      exact nameLoop_miss vol (pb.volumes dc) hmissv
    have hcs : create_snapshot params pb =
        (Except.ok (pb.createSnap (locateDatacenter pb dc).1
            (locateVolume pb (locateDatacenter pb dc).1 vol).1
            params.snapshot_name params.description),
          (locateDatacenter pb dc).2 ++
            (locateVolume pb (locateDatacenter pb dc).1 vol).2 ++
            [Effect.sdk (SdkCall.createSnapshot (locateDatacenter pb dc).1
              (locateVolume pb (locateDatacenter pb dc).1 vol).1
              params.snapshot_name params.description)]) := by
      unfold create_snapshot
      rw [hdc, hvol]
    rw [hcs]
    simp [e1, e2]
  · intro params snap hsnap hms hmiss
    have e3 : (locateSnapshot pb snap).1 = snap := by
      rw [locateSnapshot_not_uuid pb snap hms]
      exact nameLoop_miss snap pb.snapshots hmiss
    have hrs : remove_snapshot params pb =
        (Except.ok (pb.removeSnap (locateSnapshot pb snap).1),
          (locateSnapshot pb snap).2 ++
            [Effect.sdk (SdkCall.removeSnapshot
              (locateSnapshot pb snap).1)]) := by
      unfold remove_snapshot
      rw [hsnap]
    rw [hrs]
    simp [e3]

/-- Witness for C9: on a concrete client, names that match nothing are
kept and handed verbatim to the SDK create and remove calls. -/
theorem lookup_miss_verbatim_witness :
    (locateDatacenter pb0 "ghost dc").1 = "ghost dc"
    ∧ (create_snapshot params4 pb0).1 =
      Except.ok (pb0.createSnap "ghost dc" "ghost vol" none none)
    ∧ (remove_snapshot params4 pb0).1 =
      Except.ok (pb0.removeSnap "ghost snap") := by
  have h := lookup_miss_verbatim pb0
  refine ⟨h.1 "ghost dc" (by decide) (by decide), ?_, ?_⟩
  · exact (h.2.2.2.1 params4 "ghost dc" "ghost vol" rfl rfl (by decide)
      (by decide) (by decide) (by decide)).1
  · exact (h.2.2.2.2 params4 "ghost snap" rfl (by decide) (by decide)).1

/-- C5: with valid credentials, state present calls the SDK
create_snapshot on the resolved datacenter and volume and exits reporting
the returned snapshot object; state absent calls the SDK remove_snapshot
on the resolved snapshot and exits reporting the returned value as
changed. -/
theorem main_dispatch (params : Params) (pb : Provider) (usr pwd : String)
    (hu : params.subscription_user = some usr) (hu2 : usr ≠ "")
    (hp : params.subscription_password = some pwd) (hp2 : pwd ≠ "") :
    (∀ dc vol, params.state = "present" →
      params.datacenter = some dc → dc ≠ "" →
      params.volume = some vol → vol ≠ "" →
      (main params pb).1 = Outcome.exitSnapshot
        (pb.createSnap (locateDatacenter pb dc).1
          (locateVolume pb (locateDatacenter pb dc).1 vol).1
          params.snapshot_name params.description)
      ∧ Effect.sdk (SdkCall.createSnapshot (locateDatacenter pb dc).1
          (locateVolume pb (locateDatacenter pb dc).1 vol).1
          params.snapshot_name params.description) ∈ (main params pb).2)
    ∧ (∀ snap, params.state = "absent" →
      params.snapshot = some snap → snap ≠ "" →
      (main params pb).1 = Outcome.exitChanged
        (pb.removeSnap (locateSnapshot pb snap).1)
      ∧ Effect.sdk (SdkCall.removeSnapshot (locateSnapshot pb snap).1) ∈
        (main params pb).2) := by
  have hfu : falsy params.subscription_user = false := by
    rw [hu]; simp [falsy, hu2]
  have hfp : falsy params.subscription_password = false := by
    rw [hp]; simp [falsy, hp2]
  constructor
  · intro dc vol hstate hdc hdc2 hvol hvol2
    have hfd : falsy params.datacenter = false := by
      rw [hdc]; simp [falsy, hdc2]
    have hfv : falsy params.volume = false := by
      rw [hvol]; simp [falsy, hvol2]
    have habs : ¬ params.state = "absent" := by rw [hstate]; decide
    have hcs : create_snapshot params pb =
        (Except.ok (pb.createSnap (locateDatacenter pb dc).1
            (locateVolume pb (locateDatacenter pb dc).1 vol).1
            params.snapshot_name params.description),
          (locateDatacenter pb dc).2 ++
            (locateVolume pb (locateDatacenter pb dc).1 vol).2 ++
            [Effect.sdk (SdkCall.createSnapshot (locateDatacenter pb dc).1
              (locateVolume pb (locateDatacenter pb dc).1 vol).1
              params.snapshot_name params.description)]) := by
      unfold create_snapshot
      rw [hdc, hvol]
    have hmain : main params pb =
        (Outcome.exitSnapshot (pb.createSnap (locateDatacenter pb dc).1
            (locateVolume pb (locateDatacenter pb dc).1 vol).1
            params.snapshot_name params.description),
          (locateDatacenter pb dc).2 ++
            (locateVolume pb (locateDatacenter pb dc).1 vol).2 ++
            [Effect.sdk (SdkCall.createSnapshot (locateDatacenter pb dc).1
              (locateVolume pb (locateDatacenter pb dc).1 vol).1
              params.snapshot_name params.description)]) := by
      unfold main
      rw [hfu, hfp]
      simp only [Bool.false_eq_true, if_false]
      rw [if_neg habs, if_pos hstate, hfd, hfv]
      simp only [Bool.false_eq_true, if_false]
      rw [hcs]
    rw [hmain]
    exact ⟨rfl, by simp⟩
  · intro snap hstate hsnap hsnap2
    have hfs : falsy params.snapshot = false := by
      rw [hsnap]; simp [falsy, hsnap2]
    have hrs : remove_snapshot params pb =
        (Except.ok (pb.removeSnap (locateSnapshot pb snap).1),
          (locateSnapshot pb snap).2 ++
            [Effect.sdk (SdkCall.removeSnapshot
              (locateSnapshot pb snap).1)]) := by
      unfold remove_snapshot
      rw [hsnap]
    have hmain : main params pb =
        (Outcome.exitChanged (pb.removeSnap (locateSnapshot pb snap).1),
          (locateSnapshot pb snap).2 ++
            [Effect.sdk (SdkCall.removeSnapshot
              (locateSnapshot pb snap).1)]) := by
      unfold main
      rw [hfu, hfp]
      simp only [Bool.false_eq_true, if_false]
      rw [if_pos hstate, hfs]
      simp only [Bool.false_eq_true, if_false]
      rw [hrs]
    rw [hmain]
    exact ⟨rfl, by simp⟩

/-- Witness for C5: concrete present and absent invocations on a concrete
client. -/
theorem main_dispatch_witness :
    (main params1 pb0).1 = Outcome.exitSnapshot
      (pb0.createSnap (locateDatacenter pb0 "Tardis One").1
        (locateVolume pb0 (locateDatacenter pb0 "Tardis One").1 "vol01").1
        (some "snap one") (some "pre-deployment"))
    ∧ (main params2 pb0).1 = Outcome.exitChanged
      (pb0.removeSnap (locateSnapshot pb0 "my snap").1) := by
  constructor
  · exact ((main_dispatch params1 pb0 "user" "pass" rfl (by decide) rfl
      (by decide)).1 "Tardis One" "vol01" rfl rfl (by decide) rfl
      (by decide)).1
  · exact ((main_dispatch params2 pb0 "user" "pass" rfl (by decide) rfl
      (by decide)).2 "my snap" rfl rfl (by decide)).1

/-- C7: the module keeps no local state: every effect of create_snapshot,
remove_snapshot and main is an SDK call — there is never a write to
module.params nor to local storage; the only further observable of main
is the single report it returns. -/
theorem operations_touch_only_sdk (params : Params) (pb : Provider) :
    ((create_snapshot params pb).2.all Effect.isSdk) = true
    ∧ ((remove_snapshot params pb).2.all Effect.isSdk) = true
    ∧ ((main params pb).2.all Effect.isSdk) = true := by
  refine ⟨?_, ?_, ?_⟩
  · simp only [List.all_eq_true]
    intro e he
    exact (create_snapshot_effects params pb e he).1
  · simp only [List.all_eq_true]
    intro e he
    exact (remove_snapshot_effects params pb e he).1
  · simp only [List.all_eq_true]
    intro e he
    exact (main_effects params pb e he).1

/-- C1 evidence: `main` never performs a request-status poll — no
invocation, whatever the params (in particular with `wait = true`), ever
issues a `get_request` SDK call — and the `wait` and `wait_timeout`
parameters have no influence at all on what `main` does:
`_wait_for_completion` is dead code. -/
theorem main_never_polls (params : Params) (pb : Provider) :
    ((main params pb).2.all fun e => !Effect.isGetRequest e) = true
    ∧ ∀ b w, main { params with wait := b, wait_timeout := w } pb =
        main params pb := by
  constructor
  · simp only [List.all_eq_true]
    intro e he
    simp [(main_effects params pb e he).2]
  · intro b w
    rfl

/-- C10: when the state is neither present nor absent, `main` passes the
credential checks, takes neither dispatch branch, performs no SDK call
and reports nothing. -/
theorem main_other_state (params : Params) (pb : Provider)
    (hu : falsy params.subscription_user = false)
    (hp : falsy params.subscription_password = false)
    (h1 : params.state ≠ "absent") (h2 : params.state ≠ "present") :
    main params pb = (Outcome.noReport, []) := by
  unfold main
  rw [hu, hp]
  simp only [Bool.false_eq_true, if_false]
  rw [if_neg h1, if_neg h2]

/-- Witness for C10: a concrete invocation with state restore reports
nothing and calls nothing. -/
theorem main_other_state_witness :
    main params3 pb0 = (Outcome.noReport, []) :=
  main_other_state params3 pb0 (by decide) (by decide) (by decide)
    (by decide)

end ProfitbricksSnapshot
